import Mathlib

/-!
Verification of the trapezoidal / minimum-time trajectory planner of
`trajectories.py`, shallow-embedded over the real numbers.

The source plans, per degree of freedom (DOF), either a triangular
(minimum-time, bang-bang) velocity profile or a trapezoidal
(accelerate / cruise / decelerate) fallback, and exposes a piecewise
evaluator returning (acceleration, velocity, position) at a query time.
Python floats are modelled as real numbers; `np.sqrt` as `Real.sqrt`;
raised exceptions as `Except.error` values.
-/

namespace Trajectories

/-- Error values corresponding to the exceptions raised by the source:
the two `PlanningError` raise sites, the two `ValueError` sites of the
parameter check, the two `ValueError` sites of the evaluator, and the
Python `TypeError` that `len(None)` raises. -/
inductive Err where
  | missingLimit
  | lengthMismatch
  | typeError
  | speedExceeded
  | profileInfeasible
  | negativeTime
  | timeExceedsLimit
deriving DecidableEq, Repr

/-- The tuple `(t, ta, tc, sa, sc, vc)` returned by both planners. -/
structure PlannedProfile where
  t : ℝ
  ta : ℝ
  tc : ℝ
  sa : ℝ
  sc : ℝ
  vc : ℝ

/-- Embedding of `check_profile_params` (trajectories.py lines 16-25).
The Python chained comparison
`len(x) == len(y) == len(v0) == len(a0) == len(a_max) == len(v_max)`
evaluates each `len` left to right and short-circuits on the first
false comparison, so `len(None)` (a `TypeError`) is only reached when
all comparisons to its left hold; the guard on line 17 only fires when
both limit collections are absent. -/
def check_profile_params (x y v0 a0 : List ℝ) (a_max v_max : Option (List ℝ)) :
    Except Err Nat :=
  match a_max, v_max with
  | none, none => .error .missingLimit
  | _, _ =>
    if x.length ≠ y.length then .error .lengthMismatch
    else if y.length ≠ v0.length then .error .lengthMismatch
    else if v0.length ≠ a0.length then .error .lengthMismatch
    else
      match a_max with
      | none => .error .typeError
      | some am =>
        if a0.length ≠ am.length then .error .lengthMismatch
        else
          match v_max with
          | none => .error .typeError
          | some vm =>
            if am.length ≠ vm.length then .error .lengthMismatch
            else .ok x.length

/-- Embedding of `trapezoidal_planner` (trajectories.py lines 28-55). -/
noncomputable def trapezoidal_planner (x y v0 a0 v_max a_max : ℝ) :
    Except Err PlannedProfile :=
  let ta := (v_max - v0) / a_max
  let sa := a_max * ta ^ 2 / 2 + v0 * ta
  if y - x < 2 * sa then .error .profileInfeasible
  else
    let t := (y - x - a_max * ta ^ 2 - 2 * v0 * ta) / v_max + 2 * ta
    .ok ⟨t, ta, t - 2 * ta, sa, (t - 2 * ta) * v_max, v_max⟩

/-- Embedding of `minimum_time_planner` (trajectories.py lines 58-91). -/
noncomputable def minimum_time_planner (x y v0 a0 v_max a_max : ℝ) :
    Except Err PlannedProfile :=
  let D := Real.sqrt (v0 ^ 2 + (y - x) * a_max)
  let denom := a_max / 2
  let t := max ((-v0 + D) / denom) ((-v0 - D) / denom)
  let ta := 0.5 * t
  if v0 + a_max * ta > v_max then .error .speedExceeded
  else .ok ⟨t, ta, 0, v0 * ta + a_max * ta ^ 2 / 2, 0, v0 + a_max * ta⟩

/-- The per-DOF body of the planning loop (trajectories.py lines 121-128):
try the minimum-time planner, and on a `PlanningError` fall back to the
trapezoidal planner. -/
noncomputable def plan_dof (x y v0 a0 v_max a_max : ℝ) :
    Except Err PlannedProfile :=
  match minimum_time_planner x y v0 a0 v_max a_max with
  | .ok params => .ok params
  | .error _ => trapezoidal_planner x y v0 a0 v_max a_max

/-- Embedding of the orchestrator `trapezoidal_profile`
(trajectories.py lines 98-138): validate the parameter collections
(note the call site passes `v_max` into the validator's `a_max` slot
and vice versa, exactly as on line 110), then plan each DOF in input
order, propagating the first planning error. -/
noncomputable def trapezoidal_profile (x y v0 a0 : List ℝ)
    (v_max a_max : Option (List ℝ)) : Except Err (List PlannedProfile) :=
  match check_profile_params x y v0 a0 v_max a_max with
  | .error e => .error e
  | .ok dof =>
    match v_max, a_max with
    | some vm, some am =>
        (List.range dof).mapM (fun i =>
          plan_dof (x.getD i 0) (y.getD i 0) (v0.getD i 0) (a0.getD i 0)
            (vm.getD i 0) (am.getD i 0))
    | _, _ => .error .typeError

/-- Embedding of the per-DOF body of the evaluator closure `trajectory`
(trajectories.py lines 140-178), including the global negative-time
check performed before the loop.  The branch conditions, their order,
and the value `v_max` reported as the cruise speed (line 161) are taken
verbatim from the source. -/
noncomputable def trajectory_point (x y v0 a0 v_max a_max : ℝ)
    (p : PlannedProfile) (_t : ℝ) : Except Err (ℝ × ℝ × ℝ) :=
  if _t < 0 then .error .negativeTime
  else if _t = 0 then .ok (a0, v0, x)
  else if 0 < _t ∧ _t ≤ p.ta then
    .ok (a_max, a_max * _t + v0, x + a_max * _t ^ 2 / 2 + v0 * _t)
  else if p.ta ≤ _t ∧ _t < p.ta + p.tc then
    .ok (0, v_max, x + p.sa + p.vc * (_t - p.ta))
  else if p.ta + p.tc ≤ _t ∧ _t < p.t then
    .ok (-a_max, p.vc - a_max * (_t - p.ta - p.tc),
      x + p.sa + p.sc - a_max * (_t - p.ta - p.tc) ^ 2 / 2
        + p.vc * (_t - p.ta - p.tc))
  else if _t ≥ p.t then .ok (a0, v0, y)
  else .error .timeExceedsLimit

/-! ### Spec-side formulas (§4.2 of the specification)

These definitions transcribe the specification's stated formulas for the
minimum-time planner, to be compared with the source embedding above. -/

/-- Spec formula: the discriminant `D = sqrt(v0² + (y−x)·aMax)`. -/
noncomputable def spec_mt_D (x y v0 a_max : ℝ) : ℝ :=
  Real.sqrt (v0 ^ 2 + (y - x) * a_max)

/-- Spec formula: `t = max((−v0+D)/(aMax/2), (−v0−D)/(aMax/2))`. -/
noncomputable def spec_mt_t (x y v0 a_max : ℝ) : ℝ :=
  max ((-v0 + spec_mt_D x y v0 a_max) / (a_max / 2))
    ((-v0 - spec_mt_D x y v0 a_max) / (a_max / 2))

/-- Spec formula: peak speed `vPeak = v0 + aMax·(t/2)`. -/
noncomputable def spec_mt_vPeak (x y v0 a_max : ℝ) : ℝ :=
  v0 + a_max * (spec_mt_t x y v0 a_max / 2)

/-! ### Closed forms for the planners -/

/-- With `a_max > 0` the larger quadratic root is the one with `+D`,
and it equals `2(D − v0)/a_max`. -/
lemma mt_max_eq (x y v0 a_max : ℝ) (ha : 0 < a_max) :
    max ((-v0 + Real.sqrt (v0 ^ 2 + (y - x) * a_max)) / (a_max / 2))
        ((-v0 - Real.sqrt (v0 ^ 2 + (y - x) * a_max)) / (a_max / 2))
      = 2 * (Real.sqrt (v0 ^ 2 + (y - x) * a_max) - v0) / a_max := by
  have ha' : a_max ≠ 0 := ne_of_gt ha
  have hd : (0:ℝ) < a_max / 2 := by linarith
  have hD : 0 ≤ Real.sqrt (v0 ^ 2 + (y - x) * a_max) := Real.sqrt_nonneg _
  rw [max_eq_left ((div_le_div_iff_of_pos_right hd).mpr (by linarith))]
  field_simp
  ring

/-- Closed form of the minimum-time planner for `a_max > 0`: it fails
exactly when `D` exceeds `v_max`, and otherwise returns the triangular
profile with total time `2(D − v0)/a_max` and peak speed `D`. -/
lemma mt_cases (x y v0 a0 v_max a_max : ℝ) (ha : 0 < a_max) :
    minimum_time_planner x y v0 a0 v_max a_max =
      if v_max < Real.sqrt (v0 ^ 2 + (y - x) * a_max) then .error .speedExceeded
      else
        .ok ⟨2 * (Real.sqrt (v0 ^ 2 + (y - x) * a_max) - v0) / a_max,
          (Real.sqrt (v0 ^ 2 + (y - x) * a_max) - v0) / a_max, 0,
          v0 * ((Real.sqrt (v0 ^ 2 + (y - x) * a_max) - v0) / a_max)
            + a_max * ((Real.sqrt (v0 ^ 2 + (y - x) * a_max) - v0) / a_max) ^ 2 / 2,
          0, Real.sqrt (v0 ^ 2 + (y - x) * a_max)⟩ := by
  have ha' : a_max ≠ 0 := ne_of_gt ha
  simp only [minimum_time_planner, mt_max_eq x y v0 a_max ha]
  have hta : (0.5 : ℝ) * (2 * (Real.sqrt (v0 ^ 2 + (y - x) * a_max) - v0) / a_max)
      = (Real.sqrt (v0 ^ 2 + (y - x) * a_max) - v0) / a_max := by ring
  rw [hta]
  have hpk : v0 + a_max * ((Real.sqrt (v0 ^ 2 + (y - x) * a_max) - v0) / a_max)
      = Real.sqrt (v0 ^ 2 + (y - x) * a_max) := by field_simp
  rw [hpk]

/-- The spec's peak-speed formula collapses to the discriminant `D`. -/
lemma spec_mt_vPeak_eq (x y v0 a_max : ℝ) (ha : 0 < a_max) :
    spec_mt_vPeak x y v0 a_max = Real.sqrt (v0 ^ 2 + (y - x) * a_max) := by
  have ha' : a_max ≠ 0 := ne_of_gt ha
  rw [spec_mt_vPeak, spec_mt_t, spec_mt_D, mt_max_eq x y v0 a_max ha]
  field_simp
  ring

/-- C2: for `a_max > 0` the minimum-time planner fails with
`speedExceeded` exactly when the spec's peak speed `vPeak` exceeds
`v_max`, and on success it returns exactly the spec's tuple
`(t, t/2, 0, v0·(t/2) + a_max·(t/2)²/2, 0, vPeak)` with `vPeak ≤ v_max`. -/
theorem C2_min_time_guard (x y v0 a0 v_max a_max : ℝ) (ha : 0 < a_max) :
    (minimum_time_planner x y v0 a0 v_max a_max = .error .speedExceeded ↔
      v_max < spec_mt_vPeak x y v0 a_max) ∧
    ∀ p, minimum_time_planner x y v0 a0 v_max a_max = .ok p →
      p = ⟨spec_mt_t x y v0 a_max, spec_mt_t x y v0 a_max / 2, 0,
            v0 * (spec_mt_t x y v0 a_max / 2)
              + a_max * (spec_mt_t x y v0 a_max / 2) ^ 2 / 2, 0,
            spec_mt_vPeak x y v0 a_max⟩ ∧
        spec_mt_vPeak x y v0 a_max ≤ v_max := by
  have ha' : a_max ≠ 0 := ne_of_gt ha
  have hpk := spec_mt_vPeak_eq x y v0 a_max ha
  have ht : spec_mt_t x y v0 a_max
      = 2 * (Real.sqrt (v0 ^ 2 + (y - x) * a_max) - v0) / a_max := by
    rw [spec_mt_t, spec_mt_D, mt_max_eq x y v0 a_max ha]
  rw [mt_cases x y v0 a0 v_max a_max ha]
  constructor
  · split_ifs with hc
    · simpa [hpk] using hc
    · simp only [hpk]
      constructor
      · intro h; exact absurd h (by simp)
      · intro h; exact absurd h hc
  · intro p hp
    split_ifs at hp with hc
    have hp' := Except.ok.inj hp
    refine ⟨?_, by rw [hpk]; exact not_lt.mp hc⟩
    rw [← hp', hpk, ht,
      (by ring : 2 * (Real.sqrt (v0 ^ 2 + (y - x) * a_max) - v0) / a_max / 2
        = (Real.sqrt (v0 ^ 2 + (y - x) * a_max) - v0) / a_max)]

/-- C2 witness: the guard theorem instantiated at
`x=0, y=8, v0=0, a0=0, v_max=5, a_max=2`. -/
theorem C2_min_time_guard_witness :
    (minimum_time_planner 0 8 0 0 5 2 = .error .speedExceeded ↔
      (5:ℝ) < spec_mt_vPeak 0 8 0 2) ∧
    ∀ p, minimum_time_planner 0 8 0 0 5 2 = .ok p →
      p = ⟨spec_mt_t 0 8 0 2, spec_mt_t 0 8 0 2 / 2, 0,
            0 * (spec_mt_t 0 8 0 2 / 2) + 2 * (spec_mt_t 0 8 0 2 / 2) ^ 2 / 2, 0,
            spec_mt_vPeak 0 8 0 2⟩ ∧
        spec_mt_vPeak 0 8 0 2 ≤ 5 :=
  C2_min_time_guard 0 8 0 0 5 2 (by norm_num)

/-- C3: for positive limits, the trapezoidal planner fails with
`profileInfeasible` exactly when `y − x < 2·sa` for the spec's ramp
distance `sa`, and on success the profile satisfies `2·sa ≤ y − x`,
`tc ≥ 0`, `sc = tc·v_max` and `vc = v_max`. -/
theorem C3_trapezoidal_guard (x y v0 a0 v_max a_max : ℝ)
    (ha : 0 < a_max) (hv : 0 < v_max) :
    (trapezoidal_planner x y v0 a0 v_max a_max = .error .profileInfeasible ↔
      y - x < 2 * (a_max * ((v_max - v0) / a_max) ^ 2 / 2
        + v0 * ((v_max - v0) / a_max))) ∧
    ∀ p, trapezoidal_planner x y v0 a0 v_max a_max = .ok p →
      2 * p.sa ≤ y - x ∧ 0 ≤ p.tc ∧ p.sc = p.tc * v_max ∧ p.vc = v_max := by
  constructor
  · simp only [trapezoidal_planner]
    split_ifs with hg
    · simpa using hg
    · constructor
      · intro h; exact absurd h (by simp)
      · intro h; exact absurd h hg
  · intro p hp
    simp only [trapezoidal_planner] at hp
    split_ifs at hp with hg
    injection hp with hp'
    subst hp'
    dsimp only
    refine ⟨not_lt.mp hg, ?_, rfl, rfl⟩
    have htc : ((y - x - a_max * ((v_max - v0) / a_max) ^ 2
          - 2 * v0 * ((v_max - v0) / a_max)) / v_max
          + 2 * ((v_max - v0) / a_max)) - 2 * ((v_max - v0) / a_max)
        = (y - x - (a_max * ((v_max - v0) / a_max) ^ 2
            + 2 * v0 * ((v_max - v0) / a_max))) / v_max := by ring
    rw [htc]
    apply div_nonneg _ (le_of_lt hv)
    have := not_lt.mp hg
    linarith

/-- C3 witness: the trapezoidal guard theorem instantiated at
`x=0, y=8, v0=0, a0=0, v_max=3, a_max=2`. -/
theorem C3_trapezoidal_guard_witness :
    (trapezoidal_planner 0 8 0 0 3 2 = .error .profileInfeasible ↔
      (8:ℝ) - 0 < 2 * (2 * ((3 - 0) / 2) ^ 2 / 2 + 0 * ((3 - 0) / 2))) ∧
    ∀ p, trapezoidal_planner 0 8 0 0 3 2 = .ok p →
      2 * p.sa ≤ 8 - 0 ∧ 0 ≤ p.tc ∧ p.sc = p.tc * 3 ∧ p.vc = 3 :=
  C3_trapezoidal_guard 0 8 0 0 3 2 (by norm_num) (by norm_num)

/-- C9: with `y = x` and `v0 = 0` and positive limits, the minimum-time
planner succeeds and returns the all-zero degenerate profile; the square
root evaluates to 0 and the root selection is unambiguous. -/
theorem C9_degenerate_profile (x a0 v_max a_max : ℝ)
    (hv : 0 < v_max) (ha : 0 < a_max) :
    minimum_time_planner x x 0 a0 v_max a_max = .ok ⟨0, 0, 0, 0, 0, 0⟩ := by
  rw [mt_cases x x 0 a0 v_max a_max ha]
  have h0 : (0:ℝ) ^ 2 + (x - x) * a_max = 0 := by ring
  rw [h0, Real.sqrt_zero]
  rw [if_neg (by linarith)]
  simp

/-- C9 witness: the degenerate profile theorem at
`x=1, a0=0, v_max=5, a_max=2`. -/
theorem C9_degenerate_profile_witness :
    minimum_time_planner 1 1 0 0 5 2 = .ok ⟨0, 0, 0, 0, 0, 0⟩ :=
  C9_degenerate_profile 1 0 5 2 (by norm_num) (by norm_num)

/-! ### Duration identity and concrete planner evaluations -/

/-- Square roots of perfect squares, for concrete evaluations. -/
lemma sqrt_num {a b : ℝ} (hb : 0 ≤ b) (h : b ^ 2 = a) : Real.sqrt a = b := by
  rw [← h, Real.sqrt_sq hb]

/-- Any successful minimum-time profile satisfies `t = 2·ta + tc`. -/
lemma mt_t_eq (x y v0 a0 v_max a_max : ℝ) (p : PlannedProfile)
    (h : minimum_time_planner x y v0 a0 v_max a_max = .ok p) :
    p.t = 2 * p.ta + p.tc := by
  simp only [minimum_time_planner] at h
  split_ifs at h
  injection h with h'
  subst h'
  dsimp only
  ring

/-- Any successful trapezoidal profile satisfies `t = 2·ta + tc`. -/
lemma tz_t_eq (x y v0 a0 v_max a_max : ℝ) (p : PlannedProfile)
    (h : trapezoidal_planner x y v0 a0 v_max a_max = .ok p) :
    p.t = 2 * p.ta + p.tc := by
  simp only [trapezoidal_planner] at h
  split_ifs at h
  injection h with h'
  subst h'
  dsimp only
  ring

/-- Any profile produced by the per-DOF fallback satisfies `t = 2·ta + tc`. -/
lemma plan_t_eq (x y v0 a0 v_max a_max : ℝ) (p : PlannedProfile)
    (h : plan_dof x y v0 a0 v_max a_max = .ok p) : p.t = 2 * p.ta + p.tc := by
  unfold plan_dof at h
  cases hmt : minimum_time_planner x y v0 a0 v_max a_max with
  | ok q =>
    rw [hmt] at h
    exact (Except.ok.inj h) ▸ mt_t_eq x y v0 a0 v_max a_max q hmt
  | error e =>
    rw [hmt] at h
    exact tz_t_eq x y v0 a0 v_max a_max p h

/-- Concrete run: `x=0, y=−8, v0=5, v_max=3, a_max=2` makes the
minimum-time planner succeed (`D = 3 ≤ 3`) with negative total time. -/
lemma mt_neg8 : minimum_time_planner 0 (-8) 5 0 3 2 = .ok ⟨-2, -1, 0, -4, 0, 3⟩ := by
  rw [mt_cases 0 (-8) 5 0 3 2 (by norm_num),
    (sqrt_num (by norm_num) (by norm_num) :
      Real.sqrt ((5:ℝ) ^ 2 + (-8 - 0) * 2) = 3),
    if_neg (by norm_num)]
  simp only [Except.ok.injEq, PlannedProfile.mk.injEq]
  norm_num

/-- The fallback planner returns the same profile on that input. -/
lemma plan_dof_neg8 : plan_dof 0 (-8) 5 0 3 2 = .ok ⟨-2, -1, 0, -4, 0, 3⟩ := by
  unfold plan_dof
  rw [mt_neg8]

/-- Concrete run: at `x=0, y=8, v0=0, v_max=3, a_max=2` the minimum-time
planner fails (`D = 4 > 3`). -/
lemma mt_8_fail : minimum_time_planner 0 8 0 0 3 2 = .error .speedExceeded := by
  rw [mt_cases 0 8 0 0 3 2 (by norm_num),
    (sqrt_num (by norm_num) (by norm_num) :
      Real.sqrt ((0:ℝ) ^ 2 + (8 - 0) * 2) = 4),
    if_pos (by norm_num)]

/-- The trapezoidal fallback on that input produces
`(t, ta, tc, sa, sc, vc) = (25/6, 3/2, 7/6, 9/4, 7/2, 3)`. -/
lemma tz_8 : trapezoidal_planner 0 8 0 0 3 2 = .ok ⟨25/6, 3/2, 7/6, 9/4, 7/2, 3⟩ := by
  simp only [trapezoidal_planner]
  rw [if_neg (by norm_num)]
  simp only [Except.ok.injEq, PlannedProfile.mk.injEq]
  norm_num

/-- The per-DOF fallback run at `x=0, y=8, v0=0, v_max=3, a_max=2`. -/
lemma plan_8 : plan_dof 0 8 0 0 3 2 = .ok ⟨25/6, 3/2, 7/6, 9/4, 7/2, 3⟩ := by
  unfold plan_dof
  rw [mt_8_fail]
  exact tz_8

/-- C4 counterexample: the minimum-time planner succeeds at
`x=0, y=−8, v0=5, a0=0, v_max=3, a_max=2` but returns total duration
`t = −2 < 0`, violating the claimed invariant `t ≥ 0`. -/
theorem C4_counterexample :
    minimum_time_planner 0 (-8) 5 0 3 2 = .ok ⟨-2, -1, 0, -4, 0, 3⟩ ∧
    ¬ (0:ℝ) ≤ -2 :=
  ⟨mt_neg8, by norm_num⟩

/-- C4 (amended): every profile successfully returned by either planner
satisfies `t = 2·ta + tc`; the claimed `t ≥ 0` does not hold in general. -/
theorem C4_duration_identity :
    (∀ x y v0 a0 v_max a_max p,
      minimum_time_planner x y v0 a0 v_max a_max = .ok p →
        p.t = 2 * p.ta + p.tc) ∧
    (∀ x y v0 a0 v_max a_max p,
      trapezoidal_planner x y v0 a0 v_max a_max = .ok p →
        p.t = 2 * p.ta + p.tc) :=
  ⟨fun x y v0 a0 v_max a_max p h => mt_t_eq x y v0 a0 v_max a_max p h,
   fun x y v0 a0 v_max a_max p h => tz_t_eq x y v0 a0 v_max a_max p h⟩

/-- C4 witness: the duration identity evaluated on the concrete
triangular profile planned at `x=0, y=−8, v0=5, v_max=3, a_max=2`. -/
theorem C4_duration_identity_witness : (-2:ℝ) = 2 * (-1) + 0 :=
  C4_duration_identity.1 0 (-8) 5 0 3 2 ⟨-2, -1, 0, -4, 0, 3⟩ mt_neg8

/-! ### Evaluator boundary lemmas -/

/-- At query time 0 the evaluator reports `(a0, v0, x)`. -/
lemma eval_at_zero (x y v0 a0 v_max a_max : ℝ) (p : PlannedProfile) :
    trajectory_point x y v0 a0 v_max a_max p 0 = .ok (a0, v0, x) := by
  simp [trajectory_point]

/-- Past the planned total duration, at a positive query time, a planned
profile with nonnegative ramp and cruise durations reports `(a0, v0, y)`. -/
lemma eval_after_end (x y v0 a0 v_max a_max t' : ℝ) (p : PlannedProfile)
    (hp : plan_dof x y v0 a0 v_max a_max = .ok p) (hta : 0 ≤ p.ta)
    (htc : 0 ≤ p.tc) (ht : p.t ≤ t') (h0 : 0 < t') :
    trajectory_point x y v0 a0 v_max a_max p t' = .ok (a0, v0, y) := by
  have htt := plan_t_eq x y v0 a0 v_max a_max p hp
  simp only [trajectory_point]
  rw [if_neg (not_lt.mpr (le_of_lt h0)), if_neg (ne_of_gt h0),
    if_neg (by rintro ⟨h1, h2⟩; linarith),
    if_neg (by rintro ⟨h1, h2⟩; linarith),
    if_neg (by rintro ⟨h1, h2⟩; linarith),
    if_pos ht]

/-- C1 counterexample: on the successfully planned profile for
`x=0, y=−8, v0=5, a0=0, v_max=3, a_max=2` (total time `t = −2`), the
query time `0 ≥ t` reports position `x = 0`, not the goal `y = −8`. -/
theorem C1_counterexample :
    plan_dof 0 (-8) 5 0 3 2 = .ok ⟨-2, -1, 0, -4, 0, 3⟩ ∧
    (0:ℝ) ≥ -2 ∧
    trajectory_point 0 (-8) 5 0 3 2 ⟨-2, -1, 0, -4, 0, 3⟩ 0 = .ok (0, 5, 0) ∧
    (0:ℝ) ≠ -8 :=
  ⟨plan_dof_neg8, by norm_num, eval_at_zero 0 (-8) 5 0 3 2 _, by norm_num⟩

/-- C1 (amended): for every successfully planned DOF, evaluation at time
0 reports `(a0, v0, x)`; and evaluation at any positive time at or past
the total duration reports `(a0, v0, y)` provided the profile's ramp and
cruise durations are nonnegative (which fails for degenerate
negative-duration plans, as the counterexample shows). -/
theorem C1_boundary_values (x y v0 a0 v_max a_max : ℝ) (p : PlannedProfile)
    (hp : plan_dof x y v0 a0 v_max a_max = .ok p) :
    trajectory_point x y v0 a0 v_max a_max p 0 = .ok (a0, v0, x) ∧
    ∀ t', 0 < t' → p.t ≤ t' → 0 ≤ p.ta → 0 ≤ p.tc →
      trajectory_point x y v0 a0 v_max a_max p t' = .ok (a0, v0, y) :=
  ⟨eval_at_zero x y v0 a0 v_max a_max p,
   fun t' h0 ht hta htc => eval_after_end x y v0 a0 v_max a_max t' p hp hta htc ht h0⟩

/-- C1 witness: the boundary-value theorem on the concrete trapezoidal
plan for `x=0, y=8, v0=0, a0=0, v_max=3, a_max=2`, queried at times 0
and 5 (past the total duration 25/6). -/
theorem C1_boundary_values_witness :
    trajectory_point 0 8 0 0 3 2 ⟨25/6, 3/2, 7/6, 9/4, 7/2, 3⟩ 0 = .ok (0, 0, 0) ∧
    trajectory_point 0 8 0 0 3 2 ⟨25/6, 3/2, 7/6, 9/4, 7/2, 3⟩ 5 = .ok (0, 0, 8) :=
  ⟨(C1_boundary_values 0 8 0 0 3 2 _ plan_8).1,
   (C1_boundary_values 0 8 0 0 3 2 _ plan_8).2 5 (by norm_num) (by norm_num)
     (by norm_num) (by norm_num)⟩

/-! ### Segment selection at the ramp/cruise boundary (C5) -/

/-- The minimum-time planner always returns `tc = 0`. -/
lemma mt_tc_eq (x y v0 a0 v_max a_max : ℝ) (p : PlannedProfile)
    (h : minimum_time_planner x y v0 a0 v_max a_max = .ok p) : p.tc = 0 := by
  simp only [minimum_time_planner] at h
  split_ifs at h
  injection h with h'
  subst h'
  rfl

/-- Field values of any successful trapezoidal profile. -/
lemma tz_fields (x y v0 a0 v_max a_max : ℝ) (p : PlannedProfile)
    (h : trapezoidal_planner x y v0 a0 v_max a_max = .ok p) :
    p.ta = (v_max - v0) / a_max ∧
    p.sa = a_max * ((v_max - v0) / a_max) ^ 2 / 2 + v0 * ((v_max - v0) / a_max) ∧
    p.vc = v_max := by
  simp only [trapezoidal_planner] at h
  split_ifs at h
  injection h with h'
  subst h'
  exact ⟨rfl, rfl, rfl⟩

/-- A successful per-DOF plan comes either from the minimum-time planner
or, after a planning error there, from the trapezoidal planner. -/
lemma plan_dof_ok_cases (x y v0 a0 v_max a_max : ℝ) (p : PlannedProfile)
    (h : plan_dof x y v0 a0 v_max a_max = .ok p) :
    minimum_time_planner x y v0 a0 v_max a_max = .ok p ∨
    (trapezoidal_planner x y v0 a0 v_max a_max = .ok p ∧
      ∃ e, minimum_time_planner x y v0 a0 v_max a_max = .error e) := by
  unfold plan_dof at h
  cases hmt : minimum_time_planner x y v0 a0 v_max a_max with
  | ok q =>
    rw [hmt] at h
    exact Or.inl h
  | error e =>
    rw [hmt] at h
    exact Or.inr ⟨h, e, rfl⟩

/-- Evaluation of the concrete trapezoidal plan for
`x=0, y=8, v0=0, a0=0, v_max=3, a_max=2` exactly at `_t = ta = 3/2`. -/
lemma eval_8_at_ta :
    trajectory_point 0 8 0 0 3 2 ⟨25/6, 3/2, 7/6, 9/4, 7/2, 3⟩ (3/2)
      = .ok (2, 3, 9/4) := by
  simp only [trajectory_point]
  norm_num

/-- C5 counterexample: the profile planned for
`x=0, y=8, v0=0, a0=0, v_max=3, a_max=2` has `ta = 3/2 > 0` and
`tc = 7/6 > 0`, yet evaluating exactly at `_t = ta` reports acceleration
`2 = a_max`, not the cruise value `0`. -/
theorem C5_counterexample :
    plan_dof 0 8 0 0 3 2 = .ok ⟨25/6, 3/2, 7/6, 9/4, 7/2, 3⟩ ∧
    (0:ℝ) < 3/2 ∧ (0:ℝ) < 7/6 ∧
    trajectory_point 0 8 0 0 3 2 ⟨25/6, 3/2, 7/6, 9/4, 7/2, 3⟩ (3/2)
      = .ok (2, 3, 9/4) ∧
    (2:ℝ) ≠ 0 :=
  ⟨plan_8, by norm_num, by norm_num, eval_8_at_ta, by norm_num⟩

/-- C5 (amended): at `_t = ta` with `ta > 0` and `tc > 0`, the evaluator
resolves to the acceleration branch, not the cruise branch: the reported
acceleration is `a_max`; the reported velocity and position nevertheless
agree with the cruise-branch values `vc` and `x0 + sa + vc·(_t − ta)`. -/
theorem C5_cruise_boundary (x y v0 a0 v_max a_max : ℝ) (p : PlannedProfile)
    (ha : a_max ≠ 0) (hp : plan_dof x y v0 a0 v_max a_max = .ok p)
    (hta : 0 < p.ta) (htc : 0 < p.tc) :
    trajectory_point x y v0 a0 v_max a_max p p.ta = .ok (a_max, p.vc, x + p.sa) := by
  rcases plan_dof_ok_cases x y v0 a0 v_max a_max p hp with hmt | ⟨htz, -⟩
  · have := mt_tc_eq x y v0 a0 v_max a_max p hmt
    linarith
  · obtain ⟨h1, h2, h3⟩ := tz_fields x y v0 a0 v_max a_max p htz
    have hvel : a_max * p.ta + v0 = p.vc := by
      rw [h1, h3]; field_simp
    have hpos : x + a_max * p.ta ^ 2 / 2 + v0 * p.ta = x + p.sa := by
      rw [h1, h2]; ring
    simp only [trajectory_point]
    rw [if_neg (not_lt.mpr (le_of_lt hta)), if_neg (ne_of_gt hta),
      if_pos ⟨hta, le_refl p.ta⟩, hvel, hpos]

/-- C5 witness: the amended boundary theorem on the concrete trapezoidal
plan for `x=0, y=8, v0=0, a0=0, v_max=3, a_max=2`. -/
theorem C5_cruise_boundary_witness :
    trajectory_point 0 8 0 0 3 2 ⟨25/6, 3/2, 7/6, 9/4, 7/2, 3⟩ (3/2)
      = .ok (2, 3, 0 + 9/4) :=
  C5_cruise_boundary 0 8 0 0 3 2 ⟨25/6, 3/2, 7/6, 9/4, 7/2, 3⟩ (by norm_num)
    plan_8 (by norm_num) (by norm_num)

/-! ### Scenario A (C6) -/

/-- `sqrt 20 = 2·sqrt 5`. -/
lemma sqrt20 : Real.sqrt 20 = 2 * Real.sqrt 5 := by
  have h5 : Real.sqrt 5 ^ 2 = 5 := Real.sq_sqrt (by norm_num)
  refine sqrt_num (by positivity) ?_
  linear_combination 4 * h5

/-- Scenario A input: the minimum-time planner succeeds, with peak speed
`2·sqrt 5 ≈ 4.47 ≤ 5`; no fallback happens. -/
lemma mt_10 : minimum_time_planner 0 10 0 0 5 2
    = .ok ⟨2 * Real.sqrt 5, Real.sqrt 5, 0, 5, 0, 2 * Real.sqrt 5⟩ := by
  have h5 : Real.sqrt 5 ^ 2 = 5 := Real.sq_sqrt (by norm_num)
  have h5n : 0 ≤ Real.sqrt 5 := Real.sqrt_nonneg 5
  rw [mt_cases 0 10 0 0 5 2 (by norm_num),
    show ((0:ℝ) ^ 2 + (10 - 0) * 2) = 20 by norm_num, sqrt20,
    if_neg (by nlinarith)]
  simp only [Except.ok.injEq, PlannedProfile.mk.injEq]
  exact ⟨by ring, by ring, trivial, by linear_combination h5, trivial, trivial⟩

/-- The per-DOF fallback planner on the Scenario A input. -/
lemma plan_10 : plan_dof 0 10 0 0 5 2
    = .ok ⟨2 * Real.sqrt 5, Real.sqrt 5, 0, 5, 0, 2 * Real.sqrt 5⟩ := by
  unfold plan_dof
  rw [mt_10]

/-- Full planning run on the single-DOF Scenario A input
`x=[0], y=[10], v0=[0], a0=[0], vMax=[5], aMax=[2]`. -/
lemma orch_10 : trapezoidal_profile [0] [10] [0] [0] (some [5]) (some [2])
    = .ok [⟨2 * Real.sqrt 5, Real.sqrt 5, 0, 5, 0, 2 * Real.sqrt 5⟩] := by
  show (List.range 1).mapM (fun i =>
      plan_dof (List.getD [0] i 0) (List.getD [10] i 0) (List.getD [0] i 0)
        (List.getD [0] i 0) (List.getD [5] i 0) (List.getD [2] i 0))
    = .ok [⟨2 * Real.sqrt 5, Real.sqrt 5, 0, 5, 0, 2 * Real.sqrt 5⟩]
  show (do
      let b ← plan_dof 0 10 0 0 5 2
      pure [b] : Except Err (List PlannedProfile))
    = .ok [⟨2 * Real.sqrt 5, Real.sqrt 5, 0, 5, 0, 2 * Real.sqrt 5⟩]
  rw [plan_10]
  rfl

/-- C6 counterexample: the Scenario A planning call does not fail with
`profileInfeasible`; it succeeds. -/
theorem C6_counterexample :
    trapezoidal_profile [0] [10] [0] [0] (some [5]) (some [2])
      ≠ .error .profileInfeasible := by
  rw [orch_10]
  simp

/-- C6 (amended): on Scenario A the minimum-time planner itself succeeds
(the triangular peak speed is `2·sqrt 5 ≈ 4.47 ≤ 5`), so no fallback and
no error occur: the planning call returns the triangular profile
`t = 2·sqrt 5, ta = sqrt 5, tc = 0, sa = 5`. -/
theorem C6_scenario_a :
    trapezoidal_profile [0] [10] [0] [0] (some [5]) (some [2])
      = .ok [⟨2 * Real.sqrt 5, Real.sqrt 5, 0, 5, 0, 2 * Real.sqrt 5⟩] ∧
    2 * Real.sqrt 5 ≤ 5 := by
  have h5 : Real.sqrt 5 ^ 2 = 5 := Real.sq_sqrt (by norm_num)
  have h5n : 0 ≤ Real.sqrt 5 := Real.sqrt_nonneg 5
  exact ⟨orch_10, by nlinarith⟩

/-! ### Parameter validation (C8) -/

/-- C8: with `a_max` absent, `v_max` present and all supplied
collections of identical length 1, the validator does not return the
common length; it crashes with a `TypeError` from `len(None)`
(the Python chained length comparison reaches `len(a_max)`). -/
theorem C8_one_limit_crash :
    check_profile_params [0] [0] [0] [0] none (some [1]) = .error .typeError := rfl

/-! ### Monotonicity of total duration in travel distance (C7) -/

/-- Success data of the minimum-time planner: closed-form total time and
the peak-speed bound, in terms of the discriminant. -/
lemma mt_ok_data (x y v0 a0 v_max a_max : ℝ) (ha : 0 < a_max)
    (p : PlannedProfile)
    (h : minimum_time_planner x y v0 a0 v_max a_max = .ok p) :
    p.t = 2 * (Real.sqrt (v0 ^ 2 + (y - x) * a_max) - v0) / a_max ∧
    Real.sqrt (v0 ^ 2 + (y - x) * a_max) ≤ v_max := by
  rw [mt_cases x y v0 a0 v_max a_max ha] at h
  split_ifs at h with hc
  injection h with h'
  subst h'
  exact ⟨rfl, not_lt.mp hc⟩

/-- A minimum-time planning error means the discriminant exceeds `v_max`. -/
lemma mt_error_data (x y v0 a0 v_max a_max : ℝ) (ha : 0 < a_max) (e : Err)
    (h : minimum_time_planner x y v0 a0 v_max a_max = .error e) :
    v_max < Real.sqrt (v0 ^ 2 + (y - x) * a_max) := by
  rw [mt_cases x y v0 a0 v_max a_max ha] at h
  split_ifs at h with hc
  exact hc

/-- Success data of the trapezoidal planner: total time as an affine
function of the travel distance, and the feasibility bound. -/
lemma tz_ok_data (x y v0 a0 v_max a_max : ℝ) (ha : 0 < a_max) (hv : 0 < v_max)
    (p : PlannedProfile)
    (h : trapezoidal_planner x y v0 a0 v_max a_max = .ok p) :
    p.t = (y - x - (v_max ^ 2 - v0 ^ 2) / a_max) / v_max
        + 2 * ((v_max - v0) / a_max) ∧
    (v_max ^ 2 - v0 ^ 2) / a_max ≤ y - x := by
  have ha' : a_max ≠ 0 := ne_of_gt ha
  have hv' : v_max ≠ 0 := ne_of_gt hv
  have hC : 2 * (a_max * ((v_max - v0) / a_max) ^ 2 / 2
        + v0 * ((v_max - v0) / a_max)) = (v_max ^ 2 - v0 ^ 2) / a_max := by
    field_simp
    ring
  simp only [trapezoidal_planner] at h
  split_ifs at h with hg
  injection h with h'
  subst h'
  constructor
  · dsimp only
    field_simp
    ring
  · rw [← hC]
    exact not_lt.mp hg

/-- C7: with shared `v0, a0` and positive limits, a smaller travel
distance never yields a larger total duration, across both planners and
the fallback policy. -/
theorem C7_monotonicity (x1 y1 x2 y2 v0 a0 v_max a_max : ℝ)
    (hv : 0 < v_max) (ha : 0 < a_max) (p1 p2 : PlannedProfile)
    (h1 : plan_dof x1 y1 v0 a0 v_max a_max = .ok p1)
    (h2 : plan_dof x2 y2 v0 a0 v_max a_max = .ok p2)
    (hd : y1 - x1 ≤ y2 - x2) : p1.t ≤ p2.t := by
  have harg : v0 ^ 2 + (y1 - x1) * a_max ≤ v0 ^ 2 + (y2 - x2) * a_max := by
    nlinarith
  have hD : Real.sqrt (v0 ^ 2 + (y1 - x1) * a_max)
      ≤ Real.sqrt (v0 ^ 2 + (y2 - x2) * a_max) := Real.sqrt_le_sqrt harg
  rcases plan_dof_ok_cases x1 y1 v0 a0 v_max a_max p1 h1 with hmt1 | ⟨htz1, e1, herr1⟩
  · obtain ⟨ht1, hle1⟩ := mt_ok_data x1 y1 v0 a0 v_max a_max ha p1 hmt1
    rcases plan_dof_ok_cases x2 y2 v0 a0 v_max a_max p2 h2 with hmt2 | ⟨htz2, e2, herr2⟩
    · obtain ⟨ht2, -⟩ := mt_ok_data x2 y2 v0 a0 v_max a_max ha p2 hmt2
      rw [ht1, ht2]
      exact (div_le_div_iff_of_pos_right ha).mpr (by linarith)
    · obtain ⟨ht2, hg2⟩ := tz_ok_data x2 y2 v0 a0 v_max a_max ha hv p2 htz2
      rw [ht1, ht2]
      have hA : 2 * (Real.sqrt (v0 ^ 2 + (y1 - x1) * a_max) - v0) / a_max
          ≤ 2 * (v_max - v0) / a_max :=
        (div_le_div_iff_of_pos_right ha).mpr (by linarith)
      have hB : 0 ≤ (y2 - x2 - (v_max ^ 2 - v0 ^ 2) / a_max) / v_max :=
        div_nonneg (by linarith) (le_of_lt hv)
      have hK : 2 * ((v_max - v0) / a_max) = 2 * (v_max - v0) / a_max := by ring
      linarith [hK]
  · have hD1 := mt_error_data x1 y1 v0 a0 v_max a_max ha e1 herr1
    obtain ⟨ht1, hg1⟩ := tz_ok_data x1 y1 v0 a0 v_max a_max ha hv p1 htz1
    rcases plan_dof_ok_cases x2 y2 v0 a0 v_max a_max p2 h2 with hmt2 | ⟨htz2, e2, herr2⟩
    · obtain ⟨-, hle2⟩ := mt_ok_data x2 y2 v0 a0 v_max a_max ha p2 hmt2
      linarith
    · obtain ⟨ht2, -⟩ := tz_ok_data x2 y2 v0 a0 v_max a_max ha hv p2 htz2
      rw [ht1, ht2]
      have := (div_le_div_iff_of_pos_right hv).mpr
        (show y1 - x1 - (v_max ^ 2 - v0 ^ 2) / a_max
            ≤ y2 - x2 - (v_max ^ 2 - v0 ^ 2) / a_max by linarith)
      linarith

/-- Concrete run: the zero-distance plan at `v_max=5, a_max=2`. -/
lemma mt_0 : minimum_time_planner 0 0 0 0 5 2 = .ok ⟨0, 0, 0, 0, 0, 0⟩ := by
  rw [mt_cases 0 0 0 0 5 2 (by norm_num),
    show ((0:ℝ) ^ 2 + (0 - 0) * 2) = 0 by norm_num, Real.sqrt_zero,
    if_neg (by norm_num)]
  simp only [Except.ok.injEq, PlannedProfile.mk.injEq]
  norm_num

/-- The fallback planner on the zero-distance input. -/
lemma plan_0 : plan_dof 0 0 0 0 5 2 = .ok ⟨0, 0, 0, 0, 0, 0⟩ := by
  unfold plan_dof
  rw [mt_0]

/-- Concrete run: `x=0, y=8, v0=0, v_max=5, a_max=2` succeeds via the
minimum-time planner (`D = 4 ≤ 5`). -/
lemma mt_8b : minimum_time_planner 0 8 0 0 5 2 = .ok ⟨4, 2, 0, 4, 0, 4⟩ := by
  rw [mt_cases 0 8 0 0 5 2 (by norm_num),
    (sqrt_num (by norm_num) (by norm_num) :
      Real.sqrt ((0:ℝ) ^ 2 + (8 - 0) * 2) = 4),
    if_neg (by norm_num)]
  simp only [Except.ok.injEq, PlannedProfile.mk.injEq]
  norm_num

/-- The fallback planner on that input. -/
lemma plan_8b : plan_dof 0 8 0 0 5 2 = .ok ⟨4, 2, 0, 4, 0, 4⟩ := by
  unfold plan_dof
  rw [mt_8b]

/-- C7 witness: the monotonicity theorem on the concrete pair of plans
for distances 0 and 8 with `v0=0, a0=0, v_max=5, a_max=2`. -/
theorem C7_monotonicity_witness :
    plan_dof 0 0 0 0 5 2 = .ok ⟨0, 0, 0, 0, 0, 0⟩ ∧
    plan_dof 0 8 0 0 5 2 = .ok ⟨4, 2, 0, 4, 0, 4⟩ ∧ (0:ℝ) ≤ 4 :=
  ⟨plan_0, plan_8b,
    C7_monotonicity 0 0 0 8 0 0 5 2 (by norm_num) (by norm_num)
      ⟨0, 0, 0, 0, 0, 0⟩ ⟨4, 2, 0, 4, 0, 4⟩ plan_0 plan_8b (by norm_num)⟩

/-! ### Influence of `a0` on planning and evaluation (C10) -/

/-- Strictly between time 0 and the total duration, the evaluator's
output does not depend on `a0`: every branch reachable there has an
`a0`-free payload. -/
lemma eval_mid_a0_irrel (x y v0 a0 b0 v_max a_max t' : ℝ) (p : PlannedProfile)
    (h0 : 0 < t') (ht : t' < p.t) :
    trajectory_point x y v0 a0 v_max a_max p t'
      = trajectory_point x y v0 b0 v_max a_max p t' := by
  simp only [trajectory_point]
  split_ifs <;> first | rfl | linarith

/-- Concrete run with `v0 = 3` above `v_max = 1`: the minimum-time
planner fails (`D = 3 > 1`). -/
lemma mt_clash : minimum_time_planner 0 0 3 7 1 2 = .error .speedExceeded := by
  rw [mt_cases 0 0 3 7 1 2 (by norm_num),
    (sqrt_num (by norm_num) (by norm_num) :
      Real.sqrt ((3:ℝ) ^ 2 + (0 - 0) * 2) = 3),
    if_pos (by norm_num)]

/-- The trapezoidal fallback then succeeds with a negative ramp time
`ta = −1` and `tc = 4 > t = 2`. -/
lemma tz_clash : trapezoidal_planner 0 0 3 7 1 2 = .ok ⟨2, -1, 4, -2, 4, 1⟩ := by
  simp only [trapezoidal_planner]
  rw [if_neg (by norm_num)]
  simp only [Except.ok.injEq, PlannedProfile.mk.injEq]
  norm_num

/-- The fallback planner on the clashing input. -/
lemma plan_clash : plan_dof 0 0 3 7 1 2 = .ok ⟨2, -1, 4, -2, 4, 1⟩ := by
  unfold plan_dof
  rw [mt_clash]
  exact tz_clash

/-- Evaluating that plan at `_t = 2 = t`: the cruise branch captures the
query (`ta = −1 ≤ 2 < ta + tc = 3`), reporting acceleration 0. -/
lemma eval_clash :
    trajectory_point 0 0 3 7 1 2 ⟨2, -1, 4, -2, 4, 1⟩ 2 = .ok (0, 1, 1) := by
  simp only [trajectory_point]
  norm_num

/-- C10 counterexample: for `x=0, y=0, v0=3, a0=7, v_max=1, a_max=2` the
plan succeeds with `t = 2`, but evaluating at `_t = 2 ≥ t` reports
acceleration `0`, not the claimed echo of `a0 = 7` (the cruise branch
captures the query because `ta = −1 < 0`). -/
theorem C10_counterexample :
    plan_dof 0 0 3 7 1 2 = .ok ⟨2, -1, 4, -2, 4, 1⟩ ∧
    (2:ℝ) ≥ 2 ∧
    trajectory_point 0 0 3 7 1 2 ⟨2, -1, 4, -2, 4, 1⟩ 2 = .ok (0, 1, 1) ∧
    (0:ℝ) ≠ 7 :=
  ⟨plan_clash, by norm_num, eval_clash, by norm_num⟩

/-- C10 (amended): both planners ignore `a0` entirely, so two runs
differing only in `a0` produce identical planned parameters; the
evaluator's output is independent of `a0` at every query time strictly
between 0 and the total duration; `a0` is echoed as the reported
acceleration at `_t = 0` always, and at `_t ≥ t` for positive `_t` on
planned profiles with nonnegative ramp and cruise durations (the echo
fails for pathological profiles with `ta < 0`, as the counterexample
shows). -/
theorem C10_a0_noninterference :
    (∀ x y v0 a0 b0 v_max a_max : ℝ,
       plan_dof x y v0 a0 v_max a_max = plan_dof x y v0 b0 v_max a_max) ∧
    (∀ (x y v0 a0 b0 v_max a_max t' : ℝ) (p : PlannedProfile),
       0 < t' → t' < p.t →
       trajectory_point x y v0 a0 v_max a_max p t'
         = trajectory_point x y v0 b0 v_max a_max p t') ∧
    (∀ (x y v0 a0 v_max a_max : ℝ) (p : PlannedProfile),
       trajectory_point x y v0 a0 v_max a_max p 0 = .ok (a0, v0, x)) ∧
    (∀ (x y v0 a0 v_max a_max t' : ℝ) (p : PlannedProfile),
       plan_dof x y v0 a0 v_max a_max = .ok p → 0 ≤ p.ta → 0 ≤ p.tc →
       p.t ≤ t' → 0 < t' →
       trajectory_point x y v0 a0 v_max a_max p t' = .ok (a0, v0, y)) :=
  ⟨fun _ _ _ _ _ _ _ => rfl,
   fun x y v0 a0 b0 v_max a_max t' p h0 ht =>
     eval_mid_a0_irrel x y v0 a0 b0 v_max a_max t' p h0 ht,
   fun x y v0 a0 v_max a_max p => eval_at_zero x y v0 a0 v_max a_max p,
   fun x y v0 a0 v_max a_max t' p hp hta htc ht h0 =>
     eval_after_end x y v0 a0 v_max a_max t' p hp hta htc ht h0⟩

/-- C10 witness: the echo-past-the-end conjunct evaluated on the
concrete trapezoidal plan for `x=0, y=8, v0=0, a0=0, v_max=3, a_max=2`
at query time 6. -/
theorem C10_a0_noninterference_witness :
    trajectory_point 0 8 0 0 3 2 ⟨25/6, 3/2, 7/6, 9/4, 7/2, 3⟩ 6 = .ok (0, 0, 8) :=
  C10_a0_noninterference.2.2.2 0 8 0 0 3 2 6 ⟨25/6, 3/2, 7/6, 9/4, 7/2, 3⟩
    plan_8 (by norm_num) (by norm_num) (by norm_num) (by norm_num)

end Trajectories
